import Mathlib

/-!
Shallow embedding of the authentication / authorization core of the
house-association management API, together with proofs of the specified
properties.

Conventions used throughout:
  * machine state (the relational store) is passed explicitly as a `Store`;
  * fallible TypeScript code (`throw` / `catch`) is embedded as `Except`;
  * JavaScript string truthiness (`undefined` and `""` are falsy) is modelled
    by `jsTruthy` / `jsStringOr` on `Option String`;
  * the signed JWT wire format is modelled abstractly: a token records its
    payload and the secret that signed it, and signature verification succeeds
    exactly when the verifier supplies the same secret (the HMAC assumption).
The spec names the two global roles MANAGER and MEMBER; in the source they are
the enum members `HA_MANAGER` and `PROPERTY_OWNER`.
-/

namespace HAManagement

/-- `UserRole` enum from the Prisma schema: exactly two global roles.
The spec calls `HA_MANAGER` "MANAGER" and `PROPERTY_OWNER` "MEMBER". -/
inductive UserRole where
  | HA_MANAGER
  | PROPERTY_OWNER
deriving DecidableEq, Repr

/-- `User` row (auth-relevant columns of the Prisma `User` model):
`password` stores the hashed credential; `kennitala` is the optional unique
national-identity string. -/
structure User where
  id : String
  email : String
  password : String
  firstName : String
  lastName : String
  role : UserRole
  kennitala : Option String
deriving DecidableEq, Repr

/-- `HouseAssociation` row: the tenant resource, with its globally unique
`registrationNum` and single owning `managerId`. -/
structure HouseAssociation where
  id : String
  managerId : String
  registrationNum : String
  name : String
  address : String
deriving DecidableEq, Repr

/-- `HAMembership` row: the join entity; the pair (userId, haId) is unique. -/
structure HAMembership where
  userId : String
  haId : String
deriving DecidableEq, Repr

/-- The relational store consumed through the Prisma client. -/
structure Store where
  users : List User
  houseAssociations : List HouseAssociation
  memberships : List HAMembership
deriving Repr

/-- `prisma.user.findUnique(\x7b where: \x7b email \x7d \x7d)`. -/
def findUserByEmail (store : Store) (email : String) : Option User :=
  store.users.find? (fun u => u.email == email)

/-- `prisma.user.findUnique(\x7b where: \x7b id \x7d \x7d)`. -/
def findUserById (store : Store) (id : String) : Option User :=
  store.users.find? (fun u => u.id == id)

/-- `prisma.user.findUnique(\x7b where: \x7b kennitala \x7d \x7d)`. -/
def findUserByKennitala (store : Store) (kennitala : String) : Option User :=
  store.users.find? (fun u => u.kennitala == some kennitala)

/-- `prisma.houseAssociation.findUnique(\x7b where: \x7b id \x7d \x7d)`. -/
def findHAById (store : Store) (haId : String) : Option HouseAssociation :=
  store.houseAssociations.find? (fun ha => ha.id == haId)

/-- `prisma.hAMembership.findUnique` on the compound unique key (userId, haId). -/
def findMembership (store : Store) (userId haId : String) : Option HAMembership :=
  store.memberships.find? (fun m => m.userId == userId && m.haId == haId)

/-! ## JavaScript string truthiness -/

/-- JS truthiness of a possibly-absent string: `undefined` and `""` are falsy. -/
def jsTruthy : Option String → Bool
  | none => false
  | some s => s != ""

/-- JS `a || b` on possibly-absent strings (falls through on `undefined`/`""`). -/
def jsStringOr (a b : Option String) : Option String :=
  match a with
  | none => b
  | some s => if s == "" then b else some s

/-! ## JWT model (`jsonwebtoken` as used by `AuthService`) -/

/-- The claim set of a signed token. `userId`/`email`/`role` are `Option`s
because `jwt.verify` places no requirement on their presence: a structurally
valid, correctly signed token may omit any of them. -/
structure JwtPayload where
  userId : Option String
  email : Option String
  role : Option UserRole
  iat : Nat
  exp : Nat
  iss : String
  aud : String
deriving DecidableEq, Repr

/-- A signed compact token. `signingSecret` records which secret produced the
signature; verification succeeds exactly when the verifier supplies the same
secret (the HMAC assumption). -/
structure SignedToken where
  payload : JwtPayload
  signingSecret : String
deriving DecidableEq, Repr

/-- The claim set `AuthService` signs: principal id, email, role. -/
structure TokenPayload where
  userId : String
  email : String
  role : UserRole
deriving DecidableEq, Repr

/-- What `AuthService.verifyToken` returns: the three fields read off the
decoded payload, with no presence check (absent fields stay absent). -/
structure DecodedTokenPayload where
  userId : Option String
  email : Option String
  role : Option UserRole
deriving DecidableEq, Repr

/-- `jwt.sign(payload, secret, \x7b expiresIn, issuer, audience \x7d)` at time
`now` (seconds). -/
def jwtSign (payload : TokenPayload) (secret : String) (expiresIn : Nat)
    (iss aud : String) (now : Nat) : SignedToken :=
  { payload :=
      { userId := some payload.userId
        email := some payload.email
        role := some payload.role
        iat := now
        exp := now + expiresIn
        iss := iss
        aud := aud }
    signingSecret := secret }

/-- The two error classes `jsonwebtoken` raises that `verifyToken`
distinguishes. -/
inductive JwtError where
  | TokenExpiredError
  | JsonWebTokenError
deriving DecidableEq, Repr

/-- `jwt.verify(token, secret, \x7b issuer, audience \x7d)` at time `now`:
signature first, then expiry, then issuer and audience claims. -/
def jwtVerify (token : SignedToken) (secret iss aud : String) (now : Nat) :
    Except JwtError JwtPayload :=
  if token.signingSecret != secret then .error .JsonWebTokenError
  else if token.payload.exp ≤ now then .error .TokenExpiredError
  else if token.payload.iss != iss then .error .JsonWebTokenError
  else if token.payload.aud != aud then .error .JsonWebTokenError
  else .ok token.payload

/-! ## `AuthService` (apps/api/src/services/auth.service.ts) -/

/-- The slice of `process.env` that `AuthService` reads. -/
structure ProcessEnv where
  JWT_SECRET : Option String
  JWT_REFRESH_SECRET : Option String
deriving DecidableEq, Repr

def ACCESS_TOKEN_EXPIRY : Nat := 15 * 60

def REFRESH_TOKEN_EXPIRY : Nat := 7 * 24 * 60 * 60

def TOKEN_ISSUER : String := "ha-management-api"

def TOKEN_AUDIENCE : String := "ha-management-client"

def MISSING_SECRET_MSG : String := "JWT_SECRET environment variable is required"

/-- `AuthService.generateAccessToken`: signs with `process.env.JWT_SECRET`,
throwing when it is missing (JS-falsy). -/
def generateAccessToken (env : ProcessEnv) (payload : TokenPayload) (now : Nat) :
    Except String SignedToken :=
  match env.JWT_SECRET with
  | none => .error MISSING_SECRET_MSG
  | some s =>
    if s == "" then .error MISSING_SECRET_MSG
    else .ok (jwtSign payload s ACCESS_TOKEN_EXPIRY TOKEN_ISSUER TOKEN_AUDIENCE now)

/-- `AuthService.generateRefreshToken`: signs with
`process.env.JWT_REFRESH_SECRET || process.env.JWT_SECRET`. -/
def generateRefreshToken (env : ProcessEnv) (payload : TokenPayload) (now : Nat) :
    Except String SignedToken :=
  match jsStringOr env.JWT_REFRESH_SECRET env.JWT_SECRET with
  | none => .error MISSING_SECRET_MSG
  | some s =>
    if s == "" then .error MISSING_SECRET_MSG
    else .ok (jwtSign payload s REFRESH_TOKEN_EXPIRY TOKEN_ISSUER TOKEN_AUDIENCE now)

/-- `AuthService.verifyToken`: picks the secret by token kind, verifies, and
returns `\x7b userId, email, role \x7d` read from the decoded payload with no
presence or type check. -/
def verifyToken (env : ProcessEnv) (token : SignedToken) (isRefreshToken : Bool)
    (now : Nat) : Except String DecodedTokenPayload :=
  let secret :=
    if isRefreshToken then jsStringOr env.JWT_REFRESH_SECRET env.JWT_SECRET
    else env.JWT_SECRET
  match secret with
  | none => .error MISSING_SECRET_MSG
  | some s =>
    if s == "" then .error MISSING_SECRET_MSG
    else
      match jwtVerify token s TOKEN_ISSUER TOKEN_AUDIENCE now with
      | .ok decoded =>
        .ok { userId := decoded.userId, email := decoded.email, role := decoded.role }
      | .error .TokenExpiredError => .error "Token has expired"
      | .error .JsonWebTokenError => .error "Invalid token"

/-- `AuthService.authenticateUser`: look up by email, then compare the
plaintext against the stored hash with `bcrypt.compare` (passed in as the
function `compare`); both failure cases return `none`. -/
def authenticateUser (compare : String → String → Bool) (store : Store)
    (email password : String) : Option User :=
  match findUserByEmail store email with
  | none => none
  | some user => if compare password user.password then some user else none

/-! ## Environment validation (config/env.ts `envSchema` / `validateEnv`) -/

/-- The JWT portion of `envSchema`: `JWT_SECRET` required with at least 32
characters; `JWT_REFRESH_SECRET` optional, but at least 32 characters when
present. -/
def envJwtChecks (env : ProcessEnv) : Bool :=
  (match env.JWT_SECRET with
   | some s => 32 ≤ s.length
   | none => false) &&
  (match env.JWT_REFRESH_SECRET with
   | some s => 32 ≤ s.length
   | none => true)

/-- `validateEnv`: parses `process.env` against `envSchema` and calls
`process.exit(1)` on failure (modelled as `none`); on success the process
continues with the same environment. `othersValid` abstracts the checks on the
fields unrelated to signing keys (`DATABASE_URL`, `PORT`, rate limits, ...),
which place no constraint on the keys. -/
def validateEnv (env : ProcessEnv) (othersValid : Bool) : Option ProcessEnv :=
  if envJwtChecks env && othersValid then some env else none

/-! ## Password strength (service check and `registerSchema` zod check) -/

/-- `/[A-Z]/.test password`. -/
def hasUppercase (s : String) : Bool :=
  s.toList.any (fun c => 65 ≤ c.toNat && c.toNat ≤ 90)

/-- `/[a-z]/.test password`. -/
def hasLowercase (s : String) : Bool :=
  s.toList.any (fun c => 97 ≤ c.toNat && c.toNat ≤ 122)

/-- `/\d/.test password`. -/
def hasDigit (s : String) : Bool :=
  s.toList.any (fun c => 48 ≤ c.toNat && c.toNat ≤ 57)

/-- The special-character class of `validatePasswordStrength` and of
`registerSchema`'s password rule (identical in the two places):
! @ # $ % ^ & * ( ) _ + - = [ ] braces ; apostrophe : double-quote backslash
vertical-bar , . < > / ? -/
def specialChars : List Char :=
  ['!', '@', '#', '$', '%', Char.ofNat 94, '&', '*', '(', ')', '_', '+', '-',
   '=', '[', ']', Char.ofNat 123, Char.ofNat 125, ';', Char.ofNat 39, ':',
   Char.ofNat 34, Char.ofNat 92, '|', ',', '.', '<', '>', '/', Char.ofNat 63]

/-- Membership test for the special-character class. -/
def hasSpecialChar (s : String) : Bool :=
  s.toList.any (fun c => specialChars.contains c)

def PW_MIN_MSG : String := "Password must be at least 8 characters long"

def PW_MAX_MSG : String := "Password is too long"

def PW_UPPER_MSG : String := "Password must contain at least one uppercase letter"

def PW_LOWER_MSG : String := "Password must contain at least one lowercase letter"

def PW_DIGIT_MSG : String := "Password must contain at least one number"

def PW_SPECIAL_MSG : String := "Password must contain at least one special character"

/-- `AuthService.validatePasswordStrength`: collects the message of every
violated rule; `isValid` (the first component) is `errors.length == 0`. -/
def validatePasswordStrength (password : String) : Bool × List String :=
  let errors :=
    (if password.length < 8 then [PW_MIN_MSG] else []) ++
    (if hasUppercase password then [] else [PW_UPPER_MSG]) ++
    (if hasLowercase password then [] else [PW_LOWER_MSG]) ++
    (if hasDigit password then [] else [PW_DIGIT_MSG]) ++
    (if hasSpecialChar password then [] else [PW_SPECIAL_MSG])
  (errors.isEmpty, errors)

/-- The issues the `registerSchema` password field produces on `parse`: zod
runs every check on the field and collects all failures (min 8, max 128, then
the four character-class rules, with the same messages as the service check). -/
def registerSchemaPasswordErrors (password : String) : List String :=
  (if password.length < 8 then [PW_MIN_MSG] else []) ++
  (if 128 < password.length then [PW_MAX_MSG] else []) ++
  (if hasUppercase password then [] else [PW_UPPER_MSG]) ++
  (if hasLowercase password then [] else [PW_LOWER_MSG]) ++
  (if hasDigit password then [] else [PW_DIGIT_MSG]) ++
  (if hasSpecialChar password then [] else [PW_SPECIAL_MSG])

/-! ## Registration (`AuthService.registerUser` behind the route's
`registerSchema` validation middleware) -/

/-- Input to `AuthService.registerUser`. -/
structure RegisterUserData where
  email : String
  password : String
  firstName : String
  lastName : String
  role : UserRole
  kennitala : Option String
deriving Repr

/-- `AuthService.registerUser`: email-uniqueness check, kennitala-uniqueness
check when a kennitala was given (JS-truthy), hash, then create. `hash` stands
for `bcrypt.hash` with the fixed cost factor; `newId` stands for the id the
store generates. Returns the updated store together with the created row. -/
def registerUser (hash : String → String) (newId : String) (store : Store)
    (data : RegisterUserData) : Except String (Store × User) :=
  if (findUserByEmail store data.email).isSome then
    .error "User with this email already exists"
  else if jsTruthy data.kennitala &&
      (findUserByKennitala store (data.kennitala.getD "")).isSome then
    .error "User with this kennitala already exists"
  else
    let user : User :=
      { id := newId
        email := data.email
        password := hash data.password
        firstName := data.firstName
        lastName := data.lastName
        role := data.role
        kennitala := if jsTruthy data.kennitala then data.kennitala else none }
    .ok ({ store with users := store.users ++ [user] }, user)

/-- The registration endpoint: the route first runs the `registerSchema`
validation middleware (rejecting with the collected issue list on any failing
check, the controller and service never running), then the controller calls
`AuthService.registerUser`. `otherIssuesBefore` / `otherIssuesAfter` abstract
the schema issues of the fields other than `password` (email, names,
confirmPassword, kennitala), which do not depend on the password rules. -/
def registerRoute (otherIssuesBefore otherIssuesAfter : List String)
    (hash : String → String) (newId : String) (store : Store)
    (data : RegisterUserData) : Except (List String) (Store × User) :=
  let issues :=
    otherIssuesBefore ++ registerSchemaPasswordErrors data.password ++
      otherIssuesAfter
  if issues.isEmpty then
    match registerUser hash newId store data with
    | .ok result => .ok result
    | .error e => .error [e]
  else .error issues

/-! ## Kennitala validation (`AuthService.validateKennitala`) -/

/-- `kennitala.replace(/\D/g, "")`: the digit characters of the input, in
order. -/
def kennitalaDigits (s : String) : List Char :=
  s.toList.filter (fun c => 48 ≤ c.toNat && c.toNat ≤ 57)

/-- `parseInt` of a two-digit substring, given as its two digit characters. -/
def digitPairVal (a b : Char) : Nat :=
  10 * (a.toNat - 48) + (b.toNat - 48)

/-- `AuthService.validateKennitala`: strip every non-digit, require exactly 10
digits, then require the first two digits to form 1..31 and the next two to
form 1..12. Format check only, no checksum. -/
def validateKennitala (kennitala : String) : Bool :=
  let cleaned := kennitalaDigits kennitala
  if cleaned.length ≠ 10 then false
  else
    let day := digitPairVal (cleaned.getD 0 '0') (cleaned.getD 1 '0')
    let month := digitPairVal (cleaned.getD 2 '0') (cleaned.getD 3 '0')
    1 ≤ day && day ≤ 31 && 1 ≤ month && month ≤ 12

/-- The claim's reading of the validator, ad litteram: after stripping
separator characters (hyphens and spaces), the input must consist of exactly
10 digits, with the same day and month constraints. Kept separate from
`validateKennitala` (which follows the source) so the two can be compared. -/
def claimKennitalaValid (kennitala : String) : Bool :=
  let stripped := kennitala.toList.filter (fun c => !(c == '-' || c == ' '))
  stripped.all (fun c => 48 ≤ c.toNat && c.toNat ≤ 57) &&
  (if stripped.length ≠ 10 then false
   else
     let day := digitPairVal (stripped.getD 0 '0') (stripped.getD 1 '0')
     let month := digitPairVal (stripped.getD 2 '0') (stripped.getD 3 '0')
     1 ≤ day && day ≤ 31 && 1 ≤ month && month ≤ 12)

/-! ## Errors of the HA services -/

/-- `ApiError` from utils/response: an HTTP status code plus a message. -/
structure ApiError where
  statusCode : Nat
  message : String
deriving DecidableEq, Repr

def haNotFoundErr : ApiError :=
  ⟨404, "House association not found"⟩

def addMemberForbiddenErr : ApiError :=
  ⟨403, "Only the manager can add members to the house association"⟩

def kennitalaNotFoundErr : ApiError :=
  ⟨404, "User with this kennitala not found. User must register first."⟩

def alreadyMemberErr : ApiError :=
  ⟨409, "User is already a member of this house association"⟩

def regNumConflictErr : ApiError :=
  ⟨409, "House association with this registration number already exists"⟩

def managerNotFoundErr : ApiError :=
  ⟨404, "Manager not found"⟩

def notHAManagerErr : ApiError :=
  ⟨403, "Only users with HA_MANAGER role can create house associations"⟩

def updateForbiddenErr : ApiError :=
  ⟨403, "Only the manager can update house association details"⟩

/-! ## `HAValidationService` (apps/api/src/services/ha/ha-validation.service.ts) -/

/-- `HAValidationService.checkHAAccess`: loads the HA with its membership
roster filtered to `userId`; not found resolves to `false`; the manager always
has access; otherwise a `PROPERTY_OWNER` has access iff the filtered roster is
non-empty; any store error (`storeFails`) is caught and resolves to `false`. -/
def checkHAAccess (store : Store) (storeFails : Bool) (haId userId : String)
    (userRole : UserRole) : Bool :=
  if storeFails then false
  else
    match findHAById store haId with
    | none => false
    | some ha =>
      if ha.managerId == userId then true
      else if userRole == UserRole.PROPERTY_OWNER then
        (store.memberships.filter
          (fun m => m.haId == ha.id && m.userId == userId)).length > 0
      else false

/-- `HAValidationService.validateRegistrationNumber`: `findFirst` on the
registration number, excluding `excludeHAId` when given; a hit raises the 409
conflict. -/
def validateRegistrationNumber (store : Store) (registrationNum : String)
    (excludeHAId : Option String) : Except ApiError Unit :=
  match store.houseAssociations.find?
      (fun ha =>
        ha.registrationNum == registrationNum &&
        (match excludeHAId with
         | some ex => ha.id != ex
         | none => true)) with
  | some _ => .error regNumConflictErr
  | none => .ok ()

/-- `HAValidationService.validateHACreation`: the creating user must exist and
hold the `HA_MANAGER` role. -/
def validateHACreation (store : Store) (managerId : String) :
    Except ApiError Unit :=
  match findUserById store managerId with
  | none => .error managerNotFoundErr
  | some manager =>
    if manager.role ≠ UserRole.HA_MANAGER then .error notHAManagerErr
    else .ok ()

/-- `HAValidationService.validateManagerAccess`: the HA must exist and the
caller must be its manager. -/
def validateManagerAccess (store : Store) (haId userId : String) :
    Except ApiError Unit :=
  match findHAById store haId with
  | none => .error haNotFoundErr
  | some ha =>
    if ha.managerId ≠ userId then .error updateForbiddenErr
    else .ok ()

/-! ## `HAService` / `HAMemberService` (apps/api/src/services/ha) -/

/-- Input to `HAService.createHA`. -/
structure CreateHAData where
  name : String
  address : String
  registrationNum : String
  managerId : String
deriving Repr

/-- Input to `HAService.updateHA` (absent fields are left unchanged). -/
structure UpdateHAData where
  name : Option String
  address : Option String
  registrationNum : Option String
deriving Repr

/-- `HAService.createHA`: validate the creator, validate registration-number
uniqueness (no exclusion), then create. `newId` stands for the id the store
generates. -/
def createHA (store : Store) (newId : String) (data : CreateHAData) :
    Except ApiError (Store × HouseAssociation) := do
  validateHACreation store data.managerId
  validateRegistrationNumber store data.registrationNum none
  let ha : HouseAssociation :=
    { id := newId
      managerId := data.managerId
      registrationNum := data.registrationNum
      name := data.name
      address := data.address }
  .ok ({ store with houseAssociations := store.houseAssociations ++ [ha] }, ha)

/-- `HAService.updateHA`: validate manager access, validate the new
registration number (excluding this HA) only when one was given (JS-truthy),
then update the row, absent fields left as they were. -/
def updateHA (store : Store) (haId : String) (data : UpdateHAData)
    (userId : String) : Except ApiError (Store × HouseAssociation) := do
  validateManagerAccess store haId userId
  if jsTruthy data.registrationNum then
    validateRegistrationNumber store (data.registrationNum.getD "") (some haId)
  else pure ()
  match findHAById store haId with
  | none => .error ⟨500, "Failed to update house association"⟩
  | some ha =>
    let updated : HouseAssociation :=
      { ha with
        name := data.name.getD ha.name
        address := data.address.getD ha.address
        registrationNum := data.registrationNum.getD ha.registrationNum }
    .ok ({ store with
            houseAssociations := store.houseAssociations.map
              (fun h => if h.id == haId then updated else h) },
         updated)

/-- `HAMemberService.addMember` (identically `HAService.addMember` in the
monolithic service): manager check on the HA, resolve the kennitala to an
existing user, reject a duplicate membership, create the membership row. -/
def addMember (store : Store) (haId kennitala managerId : String) :
    Except ApiError (Store × HAMembership) :=
  match findHAById store haId with
  | none => .error haNotFoundErr
  | some ha =>
    if ha.managerId ≠ managerId then .error addMemberForbiddenErr
    else
      match findUserByKennitala store kennitala with
      | none => .error kennitalaNotFoundErr
      | some user =>
        match findMembership store user.id haId with
        | some _ => .error alreadyMemberErr
        | none =>
          let membership : HAMembership := { userId := user.id, haId := haId }
          .ok ({ store with memberships := store.memberships ++ [membership] },
               membership)

/-! ## Concrete fixtures (used by witness theorems) -/

/-- A deterministic stand-in for `bcrypt.hash` in concrete evaluations. -/
def demoHash (p : String) : String := "hashed:" ++ p

/-- The matching stand-in for `bcrypt.compare`. -/
def demoCompare (p h : String) : Bool := h == demoHash p

def alice : User :=
  { id := "u1", email := "alice@example.com", password := demoHash "Str0ng!Pw"
    firstName := "Alice", lastName := "A", role := UserRole.HA_MANAGER
    kennitala := some "0101701234" }

def bob : User :=
  { id := "u2", email := "bob@example.com", password := demoHash "0ther!Pw"
    firstName := "Bob", lastName := "B", role := UserRole.PROPERTY_OWNER
    kennitala := some "0202800123" }

def carol : User :=
  { id := "u3", email := "carol@example.com", password := demoHash "Third!Pw9"
    firstName := "Carol", lastName := "C", role := UserRole.PROPERTY_OWNER
    kennitala := some "0303901234" }

def demoHA : HouseAssociation :=
  { id := "ha1", managerId := "u1", registrationNum := "701111-2222"
    name := "Test", address := "Addr 1" }

def demoStore : Store :=
  { users := [alice, bob, carol]
    houseAssociations := [demoHA]
    memberships := [{ userId := "u2", haId := "ha1" }] }

/-- A registration attempt whose password violates four of the five rules. -/
def daveData : RegisterUserData :=
  { email := "dave@example.com", password := "weak", firstName := "Dave"
    lastName := "D", role := UserRole.PROPERTY_OWNER, kennitala := none }

def fallbackEnv : ProcessEnv :=
  { JWT_SECRET := some "0123456789abcdef0123456789abcdef"
    JWT_REFRESH_SECRET := none }

def twoKeyEnv : ProcessEnv :=
  { JWT_SECRET := some "0123456789abcdef0123456789abcdef"
    JWT_REFRESH_SECRET := some "fedcba9876543210fedcba9876543210" }

def demoPayload : TokenPayload :=
  { userId := "u1", email := "alice@example.com", role := UserRole.HA_MANAGER }

/-- A correctly signed, unexpired token whose payload carries none of the
identity claims. -/
def bareToken : SignedToken :=
  { payload :=
      { userId := none, email := none, role := none, iat := 0, exp := 100
        iss := TOKEN_ISSUER, aud := TOKEN_AUDIENCE }
    signingSecret := "0123456789abcdef0123456789abcdef" }

/-! ## Theorems -/

/-- C4: `authenticateUser` returns `none` — not an error — both when no
principal with the email exists and when the principal exists but the password
does not match the stored hash; the two failure results are the same value
(`none`, indistinguishable to the caller); and when the principal exists and
the password matches it returns that principal. Quantified over every
`bcrypt.compare` behaviour. -/
theorem C4_authenticate_failures_indistinguishable :
    ∀ (compare : String → String → Bool) (store : Store) (email password : String),
      (findUserByEmail store email = none →
        authenticateUser compare store email password = none) ∧
      (∀ u, findUserByEmail store email = some u →
        compare password u.password = false →
        authenticateUser compare store email password = none) ∧
      (∀ u, findUserByEmail store email = some u →
        compare password u.password = true →
        authenticateUser compare store email password = some u) := by
  intro compare store email password
  refine ⟨fun h => ?_, fun u h hc => ?_, fun u h hc => ?_⟩
  · simp [authenticateUser, h]
  · simp [authenticateUser, h, hc]
  · simp [authenticateUser, h, hc]

/-- C4 witness: in the concrete store, authenticating Alice with her correct
password returns Alice. -/
theorem C4_witness :
    authenticateUser demoCompare demoStore "alice@example.com" "Str0ng!Pw" =
      some alice :=
  (C4_authenticate_failures_indistinguishable demoCompare demoStore
      "alice@example.com" "Str0ng!Pw").2.2 alice (by rfl) (by rfl)

/-- C1: `checkHAAccess` returns `true` exactly when the store lookup does not
fail, the house association exists, and either its `managerId` is the
principal (for any role) or the role is `PROPERTY_OWNER` (the spec's MEMBER)
and a membership row links the principal to that association; in every other
case — association not found, store error — it returns `false` (it is total,
so it never throws). In particular it is reflexive for managers. -/
theorem C1_checkHAAccess_characterization :
    ∀ (store : Store) (storeFails : Bool) (haId userId : String) (role : UserRole),
      (checkHAAccess store storeFails haId userId role = true ↔
        storeFails = false ∧ ∃ ha, findHAById store haId = some ha ∧
          (ha.managerId = userId ∨
            (role = UserRole.PROPERTY_OWNER ∧
              ∃ m ∈ store.memberships, m.haId = ha.id ∧ m.userId = userId))) ∧
      (∀ ha, findHAById store haId = some ha →
        checkHAAccess store false haId ha.managerId UserRole.HA_MANAGER = true) := by
  intro store storeFails haId userId role
  constructor
  · unfold checkHAAccess
    cases storeFails with
    | true => simp
    | false =>
      cases h : findHAById store haId with
      | none => simp [h]
      | some ha =>
        by_cases hm : ha.managerId = userId
        · simp [h, hm]
        · cases role with
          | HA_MANAGER => simp [h, hm]
          | PROPERTY_OWNER =>
            simp [h, hm, List.length_pos, List.filter_eq_nil_iff]
  · intro ha h
    simp [checkHAAccess, h]

/-- C1 witness: the manager of the concrete association has access to it. -/
theorem C1_witness :
    checkHAAccess demoStore false "ha1" "u1" UserRole.HA_MANAGER = true := by
  have := (C1_checkHAAccess_characterization demoStore false "ha1" "u1"
      UserRole.HA_MANAGER).2 demoHA (by rfl)
  simpa [demoHA] using this

/-- C8 counterexample: the claim reads the validator as stripping *separator*
characters only, so that an input accepted must consist of 10 digits once
hyphens/spaces are removed. The source strips every non-digit character, so
`"0101701234a"` — ten valid digits followed by a letter — is accepted by the
code although the claim as stated classifies it as a reject. -/
theorem C8_counterexample :
    validateKennitala "0101701234a" = true ∧
    claimKennitalaValid "0101701234a" = false :=
  ⟨by decide, by decide⟩

/-- C8 amended: `validateKennitala` accepts an input iff, after stripping all
*non-digit* characters, exactly 10 digits remain whose first two form a number
in 1–31 and next two a number in 1–12; in particular it rejects 9-digit,
11-digit, purely alphabetic, day>31 and month>12 inputs, and accepts valid
digit strings with or without a hyphen at position 6 (format only, no
checksum). -/
theorem C8_kennitala_format :
    (∀ s : String, validateKennitala s = true ↔
      ((kennitalaDigits s).length = 10 ∧
        1 ≤ digitPairVal ((kennitalaDigits s).getD 0 '0')
              ((kennitalaDigits s).getD 1 '0') ∧
        digitPairVal ((kennitalaDigits s).getD 0 '0')
            ((kennitalaDigits s).getD 1 '0') ≤ 31 ∧
        1 ≤ digitPairVal ((kennitalaDigits s).getD 2 '0')
              ((kennitalaDigits s).getD 3 '0') ∧
        digitPairVal ((kennitalaDigits s).getD 2 '0')
            ((kennitalaDigits s).getD 3 '0') ≤ 12)) ∧
    validateKennitala "0101701234" = true ∧
    validateKennitala "010170-1234" = true ∧
    validateKennitala "123456789" = false ∧
    validateKennitala "12345678901" = false ∧
    validateKennitala "abcdefghij" = false ∧
    validateKennitala "3201701234" = false ∧
    validateKennitala "0113701234" = false := by
  refine ⟨fun s => ?_, by decide, by decide, by decide, by decide, by decide,
    by decide, by decide⟩
  unfold validateKennitala
  by_cases hl : (kennitalaDigits s).length = 10
  · simp [hl, and_assoc]
  · simp [hl]

/-- C8 witness: the characterization applied at the concrete valid kennitala
`"0101701234"`. -/
theorem C8_witness : validateKennitala "0101701234" = true :=
  (C8_kennitala_format.1 "0101701234").mpr (by decide)

/-- C3: verifying an access token immediately after issuing it (access kind
expected) succeeds and returns exactly the issued claims, the timing fields
aside, for every claim set with a non-empty principal id (the role is valid by
typing). -/
theorem C3_access_token_roundtrip :
    ∀ (env : ProcessEnv) (payload : TokenPayload) (s : String) (now : Nat)
      (tok : SignedToken),
      env.JWT_SECRET = some s → s ≠ "" → payload.userId ≠ "" →
      generateAccessToken env payload now = .ok tok →
      verifyToken env tok false now =
        .ok { userId := some payload.userId, email := some payload.email
              role := some payload.role } := by
  intro env payload s now tok hs hsne _ hgen
  rw [generateAccessToken, hs] at hgen
  simp [hsne] at hgen
  subst hgen
  simp [verifyToken, hs, hsne, jwtVerify, jwtSign, ACCESS_TOKEN_EXPIRY]

/-- C3 witness: round-trip at a concrete environment, claim set and time. -/
theorem C3_witness :
    verifyToken fallbackEnv
        (jwtSign demoPayload "0123456789abcdef0123456789abcdef"
          ACCESS_TOKEN_EXPIRY TOKEN_ISSUER TOKEN_AUDIENCE 0) false 0 =
      .ok { userId := some "u1", email := some "alice@example.com"
            role := some UserRole.HA_MANAGER } :=
  C3_access_token_roundtrip fallbackEnv demoPayload
    "0123456789abcdef0123456789abcdef" 0 _ rfl (by decide) (by decide) rfl

/-- C10: `verifyToken` performs no presence or type check on the decoded
claim set — every token carrying a correct signature under the expected
secret, unexpired, with matching issuer and audience, verifies successfully
and yields the payload's `userId`/`email`/`role` fields as they are, absent
fields staying absent rather than raising a TokenInvalid failure. -/
theorem C10_verify_no_claims_validation :
    ∀ (env : ProcessEnv) (s : String) (tok : SignedToken) (now : Nat),
      env.JWT_SECRET = some s → s ≠ "" →
      tok.signingSecret = s → tok.payload.iss = TOKEN_ISSUER →
      tok.payload.aud = TOKEN_AUDIENCE → now < tok.payload.exp →
      verifyToken env tok false now =
        .ok { userId := tok.payload.userId, email := tok.payload.email
              role := tok.payload.role } := by
  intro env s tok now hs hsne hsig hiss haud hexp
  simp [verifyToken, hs, hsne, jwtVerify, hsig, hiss, haud,
    Nat.not_le_of_lt hexp]

/-- C10 witness: a correctly signed, unexpired token carrying none of
`userId`, `email`, `role` is accepted and the absent fields come back absent. -/
theorem C10_witness :
    verifyToken fallbackEnv bareToken false 0 =
      .ok { userId := none, email := none, role := none } :=
  C10_verify_no_claims_validation fallbackEnv
    "0123456789abcdef0123456789abcdef" bareToken 0 rfl (by decide) rfl rfl rfl
    (by decide)

/-- C2 counterexample: under the documented fallback configuration — no
dedicated refresh secret, so refresh tokens are signed with the access
secret — a freshly issued refresh token is *accepted* by access-kind
verification and yields the claims, instead of failing with TokenInvalid as
the claim asserts for every key configuration. Nothing in the payload
distinguishes the two token kinds, so when the signing keys coincide neither
can verification. -/
theorem C2_counterexample :
    (generateRefreshToken fallbackEnv demoPayload 0).map
        (fun tok => verifyToken fallbackEnv tok false 0) =
      .ok (.ok { userId := some "u1", email := some "alice@example.com"
                 role := some UserRole.HA_MANAGER }) := by
  rfl

/-- C2 amended: whenever a dedicated, non-empty refresh secret distinct from
the access secret is configured, a refresh token is never accepted where an
access token is expected: access-kind verification of any issued refresh
token fails with TokenInvalid ("Invalid token"), at every verification time.
Under the documented fallback (refresh secret absent, access secret used for
both kinds) the two kinds are interchangeable — see the counterexample. -/
theorem C2_refresh_not_accepted_as_access :
    ∀ (env : ProcessEnv) (payload : TokenPayload) (r s : String)
      (now now2 : Nat) (tok : SignedToken),
      env.JWT_REFRESH_SECRET = some r → r ≠ "" →
      env.JWT_SECRET = some s → s ≠ "" → r ≠ s →
      generateRefreshToken env payload now = .ok tok →
      verifyToken env tok false now2 = .error "Invalid token" := by
  intro env payload r s now now2 tok hr hrne hs hsne hne hgen
  rw [generateRefreshToken] at hgen
  simp [jsStringOr, hr, hrne] at hgen
  subst hgen
  simp [verifyToken, hs, hsne, jwtVerify, jwtSign, hne]

/-- C2 witness: with two distinct 32-character secrets configured, the
refresh token issued at time 0 is rejected by access-kind verification. -/
theorem C2_witness :
    verifyToken twoKeyEnv
        (jwtSign demoPayload "fedcba9876543210fedcba9876543210"
          REFRESH_TOKEN_EXPIRY TOKEN_ISSUER TOKEN_AUDIENCE 0) false 0 =
      .error "Invalid token" :=
  C2_refresh_not_accepted_as_access twoKeyEnv demoPayload
    "fedcba9876543210fedcba9876543210" "0123456789abcdef0123456789abcdef"
    0 0 _ rfl (by decide) rfl (by decide) (by decide) rfl

/-- Helper: a string of length at least 32 is not empty. -/
theorem length_ge_32_ne_empty (t : String) (hlen : 32 ≤ t.length) : t ≠ "" := by
  intro ht
  subst ht
  exact absurd hlen (by decide)

/-- Helper: when the selected secret is present and non-empty, `verifyToken`
never reaches its missing-key error branch. -/
theorem verifyToken_ne_missing (env : ProcessEnv) (tok : SignedToken)
    (isR : Bool) (now : Nat) (s : String)
    (hsec : (if isR then jsStringOr env.JWT_REFRESH_SECRET env.JWT_SECRET
             else env.JWT_SECRET) = some s)
    (hsne : s ≠ "") :
    verifyToken env tok isR now ≠ .error MISSING_SECRET_MSG := by
  rw [verifyToken]
  simp only [hsec, hsne, beq_iff_eq, if_neg, if_false]
  split <;> simp [MISSING_SECRET_MSG]

/-- C9: signing keys must be at least 32 characters. If the access signing
key is missing or shorter than 32, `validateEnv` aborts startup (`none`,
modelling `process.exit(1)`); and under any completed startup the access key
is present with at least 32 characters, both token generators always succeed
(their missing-key error branches are unreachable), and `verifyToken` never
produces the missing-key error, for either token kind. -/
theorem C9_fail_fast_on_weak_keys :
    ∀ (env : ProcessEnv) (othersValid : Bool),
      ((env.JWT_SECRET = none ∨ ∃ s, env.JWT_SECRET = some s ∧ s.length < 32) →
        validateEnv env othersValid = none) ∧
      (∀ envv, validateEnv env othersValid = some envv →
        (∃ s, envv.JWT_SECRET = some s ∧ 32 ≤ s.length) ∧
        (∀ payload now, ∃ tok, generateAccessToken envv payload now = .ok tok) ∧
        (∀ payload now, ∃ tok, generateRefreshToken envv payload now = .ok tok) ∧
        (∀ tok isR now,
          verifyToken envv tok isR now ≠ .error MISSING_SECRET_MSG)) := by
  intro env othersValid
  constructor
  · rintro (h | ⟨s, hs, hlen⟩)
    · simp [validateEnv, envJwtChecks, h]
    · simp [validateEnv, envJwtChecks, hs, Nat.not_le_of_lt hlen]
  · intro envv hv
    rw [validateEnv] at hv
    by_cases hc : (envJwtChecks env && othersValid) = true
    · rw [if_pos hc] at hv
      cases hv
      rw [Bool.and_eq_true] at hc
      have hjwt := hc.1
      rw [envJwtChecks, Bool.and_eq_true] at hjwt
      obtain ⟨h1, h2⟩ := hjwt
      cases hjs : env.JWT_SECRET with
      | none => rw [hjs] at h1; exact absurd h1 (by decide)
      | some s =>
        rw [hjs] at h1
        have h32 : 32 ≤ s.length := by simpa using h1
        have hsne : s ≠ "" := length_ge_32_ne_empty s h32
        refine ⟨⟨s, rfl, h32⟩, ?_, ?_, ?_⟩
        · intro payload now
          exact ⟨jwtSign payload s ACCESS_TOKEN_EXPIRY TOKEN_ISSUER
            TOKEN_AUDIENCE now, by simp [generateAccessToken, hjs, hsne]⟩
        · intro payload now
          cases hrs : env.JWT_REFRESH_SECRET with
          | none =>
            exact ⟨jwtSign payload s REFRESH_TOKEN_EXPIRY TOKEN_ISSUER
              TOKEN_AUDIENCE now,
              by simp [generateRefreshToken, jsStringOr, hrs, hjs, hsne]⟩
          | some r =>
            rw [hrs] at h2
            have hr32 : 32 ≤ r.length := by simpa using h2
            have hrne : r ≠ "" := length_ge_32_ne_empty r hr32
            exact ⟨jwtSign payload r REFRESH_TOKEN_EXPIRY TOKEN_ISSUER
              TOKEN_AUDIENCE now,
              by simp [generateRefreshToken, jsStringOr, hrs, hrne]⟩
        · intro tok isR now
          cases isR with
          | false =>
            exact verifyToken_ne_missing env tok false now s (by simpa) hsne
          | true =>
            cases hrs : env.JWT_REFRESH_SECRET with
            | none =>
              refine verifyToken_ne_missing env tok true now s ?_ hsne
              simp [jsStringOr, hrs, hjs]
            | some r =>
              rw [hrs] at h2
              have hr32 : 32 ≤ r.length := by simpa using h2
              have hrne : r ≠ "" := length_ge_32_ne_empty r hr32
              refine verifyToken_ne_missing env tok true now r ?_ hrne
              simp [jsStringOr, hrs, hrne]
    · rw [if_neg hc] at hv
      exact absurd hv (by simp)

/-- C9 witness: a 32-character access key with the refresh key absent passes
startup validation, and access-token generation then succeeds. -/
theorem C9_witness :
    ∃ tok, generateAccessToken fallbackEnv demoPayload 0 = .ok tok :=
  (((C9_fail_fast_on_weak_keys fallbackEnv true).2 fallbackEnv
    (by decide)).2.1) demoPayload 0

/-- C6: for a resource that exists, `addMember` applies this error precedence:
requester not the manager → 403 Forbidden; no registered principal with the
kennitala → 404 NotFound (no auto-provisioning); membership already present →
409 Conflict; otherwise it creates and returns the membership row. -/
theorem C6_addMember_precedence :
    ∀ (store : Store) (haId kennitala managerId : String)
      (ha : HouseAssociation),
      findHAById store haId = some ha →
      ((ha.managerId ≠ managerId →
          addMember store haId kennitala managerId =
            .error addMemberForbiddenErr) ∧
        (ha.managerId = managerId →
          findUserByKennitala store kennitala = none →
          addMember store haId kennitala managerId =
            .error kennitalaNotFoundErr) ∧
        (∀ u, ha.managerId = managerId →
          findUserByKennitala store kennitala = some u →
          (findMembership store u.id haId).isSome = true →
          addMember store haId kennitala managerId = .error alreadyMemberErr) ∧
        (∀ u, ha.managerId = managerId →
          findUserByKennitala store kennitala = some u →
          findMembership store u.id haId = none →
          addMember store haId kennitala managerId =
            .ok ({ store with
                    memberships := store.memberships ++ [⟨u.id, haId⟩] },
                 ⟨u.id, haId⟩))) := by
  intro store haId kennitala managerId ha hha
  refine ⟨fun hm => ?_, fun hm hu => ?_, fun u hm hu hmem => ?_,
    fun u hm hu hmem => ?_⟩
  · simp [addMember, hha, hm]
  · simp [addMember, hha, hm, hu]
  · obtain ⟨m, hm2⟩ := Option.isSome_iff_exists.mp hmem
    simp [addMember, hha, hm, hu, hm2]
  · simp [addMember, hha, hm, hu, hmem]

/-- C6 witness: in the concrete store the manager adds Carol (registered,
not yet a member) by her kennitala, and the membership row is created. -/
theorem C6_witness :
    addMember demoStore "ha1" "0303901234" "u1" =
      .ok ({ demoStore with
              memberships := demoStore.memberships ++ [⟨carol.id, "ha1"⟩] },
           ⟨carol.id, "ha1"⟩) :=
  (C6_addMember_precedence demoStore "ha1" "0303901234" "u1" demoHA
    (by rfl)).2.2.2 carol (by rfl) (by rfl) (by rfl)

/-- Helper: exact characterization of the uniqueness check — it raises the
409 conflict iff some stored association other than the excluded one already
carries the registration number. -/
theorem validateRegistrationNumber_conflict_iff :
    ∀ (store : Store) (code : String) (excl : Option String),
      validateRegistrationNumber store code excl = .error regNumConflictErr ↔
        ∃ ha ∈ store.houseAssociations, ha.registrationNum = code ∧
          ∀ ex, excl = some ex → ha.id ≠ ex := by
  intro store code excl
  rw [validateRegistrationNumber]
  cases hf : store.houseAssociations.find?
      (fun ha =>
        ha.registrationNum == code &&
        (match excl with
         | some ex => ha.id != ex
         | none => true)) with
  | some ha =>
    have hmem := List.mem_of_find?_eq_some hf
    have hp := List.find?_some hf
    rw [Bool.and_eq_true] at hp
    refine iff_of_true rfl ⟨ha, hmem, by simpa using hp.1, ?_⟩
    intro ex hex
    rw [hex] at hp
    simpa using hp.2
  | none =>
    rw [List.find?_eq_none] at hf
    refine iff_of_false (by simp) ?_
    rintro ⟨ha, hmem, hcode, hexcl⟩
    refine hf ha hmem ?_
    rw [Bool.and_eq_true]
    refine ⟨by simpa using hcode, ?_⟩
    cases excl with
    | none => simp
    | some ex => simpa using hexcl ex rfl

/-- C7: the uniqueness check fails with 409 Conflict iff some association
other than the excluded one already holds the registration code; hence
creating a second association with an existing code fails Conflict (with the
creator otherwise valid), updating an association to a code held by a
different association fails Conflict, and updating an association to its own
current code succeeds. -/
theorem C7_registration_code_uniqueness :
    (∀ (store : Store) (code : String) (excl : Option String),
      validateRegistrationNumber store code excl = .error regNumConflictErr ↔
        ∃ ha ∈ store.houseAssociations, ha.registrationNum = code ∧
          ∀ ex, excl = some ex → ha.id ≠ ex) ∧
    (∀ (store : Store) (newId : String) (data : CreateHAData) (mgr : User),
      findUserById store data.managerId = some mgr →
      mgr.role = UserRole.HA_MANAGER →
      (∃ ha ∈ store.houseAssociations,
        ha.registrationNum = data.registrationNum) →
      createHA store newId data = .error regNumConflictErr) ∧
    (∀ (store : Store) (haId userId code : String) (data : UpdateHAData)
        (ha : HouseAssociation),
      findHAById store haId = some ha → ha.managerId = userId →
      data.registrationNum = some code → code ≠ "" →
      (∃ other ∈ store.houseAssociations,
        other.registrationNum = code ∧ other.id ≠ haId) →
      updateHA store haId data userId = .error regNumConflictErr) ∧
    (∀ (store : Store) (haId userId : String) (data : UpdateHAData)
        (ha : HouseAssociation),
      findHAById store haId = some ha → ha.managerId = userId →
      data.registrationNum = some ha.registrationNum →
      ha.registrationNum ≠ "" →
      (∀ other ∈ store.houseAssociations,
        other.registrationNum = ha.registrationNum → other.id = haId) →
      ∃ result, updateHA store haId data userId = .ok result) := by
  refine ⟨validateRegistrationNumber_conflict_iff, ?_, ?_, ?_⟩
  · intro store newId data mgr hmgr hrole ⟨ha, hmem, hcode⟩
    have hv : validateRegistrationNumber store data.registrationNum none =
        .error regNumConflictErr :=
      (validateRegistrationNumber_conflict_iff store data.registrationNum
        none).mpr ⟨ha, hmem, hcode, by simp⟩
    simp [createHA, validateHACreation, hmgr, hrole, hv, Bind.bind, Except.bind]
  · intro store haId userId code data ha hha hm hreg hcne ⟨other, hmem, hcode, hne⟩
    have hv : validateRegistrationNumber store code (some haId) =
        .error regNumConflictErr :=
      (validateRegistrationNumber_conflict_iff store code (some haId)).mpr
        ⟨other, hmem, hcode, by rintro ex ⟨rfl⟩; exact hne⟩
    simp [updateHA, validateManagerAccess, hha, hm, jsTruthy, hreg, hcne, hv, Bind.bind, Except.bind]
  · intro store haId userId data ha hha hm hreg hcne huniq
    have hv : validateRegistrationNumber store ha.registrationNum
        (some haId) = .ok () := by
      rw [validateRegistrationNumber]
      cases hf : store.houseAssociations.find?
          (fun h =>
            h.registrationNum == ha.registrationNum &&
            (match some haId with
             | some ex => h.id != ex
             | none => true)) with
      | none => rfl
      | some other =>
        have hmem := List.mem_of_find?_eq_some hf
        have hp := List.find?_some hf
        rw [Bool.and_eq_true] at hp
        have hid : other.id = haId := huniq other hmem (by simpa using hp.1)
        rw [hid] at hp
        simp at hp
    simp [updateHA, validateManagerAccess, hha, hm, jsTruthy, hreg, hcne, hv,
      Bind.bind, Except.bind]

/-- C7 witness: updating the concrete association to its own current
registration code succeeds. -/
theorem C7_witness :
    ∃ result,
      updateHA demoStore "ha1" ⟨none, none, some "701111-2222"⟩ "u1" =
        .ok result :=
  C7_registration_code_uniqueness.2.2.2 demoStore "ha1" "u1"
    ⟨none, none, some "701111-2222"⟩ demoHA (by rfl) (by rfl) (by rfl)
    (by decide) (by decide)

/-- Helper: every message the service-level strength check produces is also
produced by the `registerSchema` password field (the rule set and messages
coincide; the schema adds only a maximum-length rule). -/
theorem service_errors_sub_schema (p : String) :
    ∀ msg ∈ (validatePasswordStrength p).2, msg ∈ registerSchemaPasswordErrors p := by
  intro msg h
  by_cases h1 : p.length < 8 <;> by_cases h2 : 128 < p.length <;>
    by_cases h3 : hasUppercase p <;> by_cases h4 : hasLowercase p <;>
    by_cases h5 : hasDigit p <;> by_cases h6 : hasSpecialChar p <;>
    simp_all [validatePasswordStrength, registerSchemaPasswordErrors] <;>
    tauto

/-- Helper: an empty schema issue list for the password field forces all five
strength rules of the policy to hold. -/
theorem registerSchemaPasswordErrors_nil (p : String)
    (h : registerSchemaPasswordErrors p = []) :
    8 ≤ p.length ∧ hasUppercase p = true ∧ hasLowercase p = true ∧
      hasDigit p = true ∧ hasSpecialChar p = true := by
  by_cases h1 : p.length < 8 <;> by_cases h2 : 128 < p.length <;>
    by_cases h3 : hasUppercase p <;> by_cases h4 : hasLowercase p <;>
    by_cases h5 : hasDigit p <;> by_cases h6 : hasSpecialChar p <;>
    simp_all [registerSchemaPasswordErrors]

/-- Helper: when the service-level check reports invalid, its error list is
non-empty. -/
theorem validatePasswordStrength_false (p : String)
    (h : (validatePasswordStrength p).1 = false) :
    (validatePasswordStrength p).2 ≠ [] := by
  intro hc
  rw [validatePasswordStrength] at h hc
  simp only at h hc
  rw [hc] at h
  simp at h

/-- C5: registration validates password strength before hashing. A password
is accepted only if it has at least 8 characters and contains an uppercase
letter, a lowercase letter, a digit and a special character; when any of the
five rules are unmet, registration fails with an issue list containing every
unmet rule's message, no principal is persisted (the service is never
reached), and the outcome does not depend on the hashing function — the
password is never hashed. -/
theorem C5_password_policy_gate :
    ∀ (ob oa : List String) (hash : String → String) (newId : String)
      (store : Store) (data : RegisterUserData),
      (∀ result, registerRoute ob oa hash newId store data = .ok result →
        8 ≤ data.password.length ∧ hasUppercase data.password = true ∧
        hasLowercase data.password = true ∧ hasDigit data.password = true ∧
        hasSpecialChar data.password = true) ∧
      ((validatePasswordStrength data.password).1 = false →
        (∃ issues,
          registerRoute ob oa hash newId store data = .error issues ∧
          ∀ msg ∈ (validatePasswordStrength data.password).2, msg ∈ issues) ∧
        (∀ hash2, registerRoute ob oa hash newId store data =
          registerRoute ob oa hash2 newId store data)) := by
  intro ob oa hash newId store data
  constructor
  · intro result hok
    rw [registerRoute] at hok
    by_cases hreg : registerSchemaPasswordErrors data.password = []
    · exact registerSchemaPasswordErrors_nil data.password hreg
    · simp [hreg] at hok
  · intro hinv
    have hsne : (validatePasswordStrength data.password).2 ≠ [] :=
      validatePasswordStrength_false data.password hinv
    have hschema_ne : registerSchemaPasswordErrors data.password ≠ [] := by
      intro hc
      rcases List.exists_mem_of_ne_nil _ hsne with ⟨msg, hmsg⟩
      have hsub := service_errors_sub_schema data.password msg hmsg
      rw [hc] at hsub
      exact absurd hsub (List.not_mem_nil msg)
    refine ⟨⟨ob ++ registerSchemaPasswordErrors data.password ++ oa, ?_, ?_⟩, ?_⟩
    · simp [registerRoute, hschema_ne]
    · intro msg hmsg
      have hsub := service_errors_sub_schema data.password msg hmsg
      simp only [List.mem_append]
      tauto
    · intro hash2
      simp [registerRoute, hschema_ne]

/-- C5 witness: registering with the password `"weak"` fails with an issue
list containing every unmet rule, and the outcome is independent of the
hashing function. -/
theorem C5_witness :
    (∃ issues,
      registerRoute [] [] demoHash "u9" demoStore daveData = .error issues ∧
      ∀ msg ∈ (validatePasswordStrength "weak").2, msg ∈ issues) ∧
    (∀ hash2, registerRoute [] [] demoHash "u9" demoStore daveData =
      registerRoute [] [] hash2 "u9" demoStore daveData) :=
  (C5_password_policy_gate [] [] demoHash "u9" demoStore daveData).2 (by decide)

end HAManagement
